import Mathlib

/-!
Verification development for the ubx location/date extraction program
(src/ubxlocationdate.py).

Modelling conventions:
* Python floats are modelled as rationals (ℚ).  Every numeric literal that
  appears in the program is an exact decimal, so its rational value is the
  intended one.
* Python `None` is modelled by `Option.none`; `getattr(obj, name, None)`
  becomes an optional field of a record.
* Python integer floor division `//` is `Int.fdiv` (Python `//` floors
  toward negative infinity).
* The values carried by the `lat` / `lon` / `nano` attributes of a parsed
  message can be Python ints, floats, or other objects (e.g. bytes); the
  inductive `RawVal` captures the cases that the dual `float()` / `int()`
  conversion code at lines 36-50 distinguishes.
-/

/-- A dynamic value as it may appear in a decoded message attribute.
`vint` is a Python int, `vfloat` a Python float (modelled as ℚ),
`vbytes n` a value that Python `float()` rejects but `int()` accepts with
value `n` (such as a bytes object holding a decimal numeral), and `vbad`
a value that both conversions reject. -/
inductive RawVal where
  | vint (n : ℤ)
  | vfloat (q : ℚ)
  | vbytes (n : ℤ)
  | vbad
deriving DecidableEq, Repr

/-- Python `float(v)`: succeeds on ints and floats, fails otherwise
(modulo numeric strings, which this stream never carries). -/
def pyFloat : RawVal → Option ℚ
  | RawVal.vint n => some (n : ℚ)
  | RawVal.vfloat q => some q
  | RawVal.vbytes _ => none
  | RawVal.vbad => none

/-- Python `int(v)`: ints pass through, floats truncate toward zero,
integer-numeral bytes parse, anything else fails. -/
def pyInt : RawVal → Option ℤ
  | RawVal.vint n => some n
  | RawVal.vfloat q => some (q.num.tdiv (q.den : ℤ))
  | RawVal.vbytes n => some n
  | RawVal.vbad => none

/-- The dual-path coordinate conversion of lines 36-50: first try
`float(v)`; if that fails, try `int(v) / 1e7`; if both fail the record is
skipped (`none`). -/
def parseCoord (v : RawVal) : Option ℚ :=
  match pyFloat v with
  | some q => some q
  | none =>
    match pyInt v with
    | some n => some ((n : ℚ) / 10000000)
    | none => none

/-- A message as yielded by the reader (`for raw, parsed in ubr`): an
optional identity string and the optional attributes that
`collect_info_from_file` reads with `getattr(..., None)`.  The calendar
fields are integers when present (the protocol decoder produces them as
ints); `lat`, `lon` and `nano` keep their dynamic type. -/
structure Parsed where
  identity : Option String
  lat : Option RawVal
  lon : Option RawVal
  year : Option ℤ
  month : Option ℤ
  day : Option ℤ
  hour : Option ℤ
  minute : Option ℤ
  second : Option ℤ
  nano : Option RawVal
deriving DecidableEq, Repr

/-- The tuple of fields read at lines 23-31, kept only for NAV-PVT
frames. -/
structure FixFields where
  lat : Option RawVal
  lon : Option RawVal
  year : Option ℤ
  month : Option ℤ
  day : Option ℤ
  hour : Option ℤ
  minute : Option ℤ
  second : Option ℤ
  nano : Option RawVal
deriving DecidableEq, Repr

/-- Line 22: the fields are read (and a record possibly produced) if and
only if the identity of the parsed frame equals NAV-PVT; every other
frame is silently skipped. -/
def extractFix (p : Parsed) : Option FixFields :=
  if p.identity = some "NAV-PVT" then
    some ⟨p.lat, p.lon, p.year, p.month, p.day, p.hour, p.minute, p.second, p.nano⟩
  else none

/-- The None-presence check of line 33: true when some required field is
absent. -/
def hasMissingField (f : FixFields) : Bool :=
  f.lat.isNone || f.lon.isNone || f.year.isNone || f.month.isNone ||
  f.day.isNone || f.hour.isNone || f.minute.isNone || f.second.isNone

/-- Gregorian leap year, as Python `datetime` uses. -/
def isLeap (y : ℤ) : Bool :=
  y % 4 = 0 && (y % 100 ≠ 0 || y % 400 = 0)

/-- Days in a month, as Python `datetime` validates. -/
def daysInMonth (y m : ℤ) : ℤ :=
  if m = 2 then (if isLeap y then 29 else 28)
  else if m = 4 ∨ m = 6 ∨ m = 9 ∨ m = 11 then 30
  else 31

/-- Validity domain of the Python `datetime(year, month, day, hour,
minute, second, microsecond)` constructor: outside it the constructor
raises and line 70 skips the record. -/
def validDateTime (y mo d h mi s us : ℤ) : Bool :=
  decide (1 ≤ y) && decide (y ≤ 9999) &&
  decide (1 ≤ mo) && decide (mo ≤ 12) &&
  decide (1 ≤ d) && decide (d ≤ daysInMonth y mo) &&
  decide (0 ≤ h) && decide (h < 24) &&
  decide (0 ≤ mi) && decide (mi < 60) &&
  decide (0 ≤ s) && decide (s < 60) &&
  decide (0 ≤ us) && decide (us ≤ 999999)

/-- Lines 60-66: microseconds from the nano attribute.  Absent nano gives
0; present nano is converted with `int(nano) // 1000` (Python floor
division); an unconvertible nano falls back to 0. -/
def usecOf (nano : Option RawVal) : ℤ :=
  match nano with
  | none => 0
  | some v =>
    match pyInt v with
    | some n => Int.fdiv n 1000
    | none => 0

/-- A normalized sample: the components of the naive-UTC datetime built at
line 67 plus the converted coordinates appended at line 72. -/
structure Sample where
  year : ℤ
  month : ℤ
  day : ℤ
  hour : ℤ
  minute : ℤ
  second : ℤ
  usec : ℤ
  lat : ℚ
  lon : ℚ
deriving DecidableEq, Repr

/-- Lines 33-72 for one NAV-PVT record: skip when a required field is
absent, convert the coordinates, build the timestamp, and skip when the
datetime constructor would reject the calendar fields. -/
def normalizeFix (f : FixFields) : Option Sample :=
  match f.lat, f.lon, f.year, f.month, f.day, f.hour, f.minute, f.second with
  | some lat, some lon, some y, some mo, some d, some h, some mi, some s =>
    match parseCoord lat with
    | none => none
    | some latDeg =>
      match parseCoord lon with
      | none => none
      | some lonDeg =>
        let us := usecOf f.nano
        if validDateTime y mo d h mi s us then
          some ⟨y, mo, d, h, mi, s, us, latDeg, lonDeg⟩
        else none
  | _, _, _, _, _, _, _, _ => none

/-- One iteration of the reader loop (lines 20-72): a parsed frame either
contributes one sample or nothing. -/
def processRecord (p : Parsed) : Option Sample :=
  match extractFix p with
  | none => none
  | some f => normalizeFix f

/-- `collect_info_from_file` on the sequence of parsed frames of one
file: the appended records, in decode order. -/
def collectFile (ps : List Parsed) : List Sample :=
  ps.filterMap processRecord

/-- `collect_info_from_dir` (lines 85-93): each file contributes its
collected records; a file whose processing raises (e.g. gzip
decompression failure) contributes an empty list and one printed
warning.  The input models each file as a name plus either its parsed
frame sequence or the exception message. -/
def collectDir :
    List (String × Except String (List Parsed)) →
      List (String × List Sample) × List String
  | [] => ([], [])
  | (name, data) :: rest =>
    let r := collectDir rest
    match data with
    | Except.ok recs => ((name, collectFile recs) :: r.1, r.2)
    | Except.error e =>
      ((name, []) :: r.1,
       ("Warning: failed to process " ++ name ++ ": " ++ e) :: r.2)

/-- The region decision chain of lines 122-134 in `main`: strict
bounding-box tests, first match wins, default sentinel unknown. -/
def classify (lat lon : ℚ) : String :=
  if 59.83333 < lat ∧ lat < 68.90596 ∧ 21.37596 < lon ∧ lon < 30.93276 then "Finland"
  else if 45.83203 < lat ∧ lat < 47.69732 ∧ 6.07544 < lon ∧ lon < 9.83723 then "Switzerland"
  else if 18.24306 < lat ∧ lat < 52.33333 ∧ 75.98951 < lon ∧ lon < 134.28917 then "China"
  else if 24.34478 < lat ∧ lat < 45.40944 ∧ 124.15717 < lon ∧ lon < 145.575 then "Japan"
  else if 1.28967 < lat ∧ lat < 1.32808 ∧ 103.804641 < lon ∧ lon < 103.84 then "Singapore"
  else if 19.50139 < lat ∧ lat < 64.85694 ∧ -161.75583 < lon ∧ lon < -68.01197 then "United States"
  else "unknown"

/-- The rule table of the spec: (name, min lat, max lat, min lon,
max lon), in the order of the chain. -/
def ruleList : List (String × ℚ × ℚ × ℚ × ℚ) :=
  [("Finland", 59.83333, 68.90596, 21.37596, 30.93276),
   ("Switzerland", 45.83203, 47.69732, 6.07544, 9.83723),
   ("China", 18.24306, 52.33333, 75.98951, 134.28917),
   ("Japan", 24.34478, 45.40944, 124.15717, 145.575),
   ("Singapore", 1.28967, 1.32808, 103.804641, 103.84),
   ("United States", 19.50139, 64.85694, -161.75583, -68.01197)]

/-- Strict containment of a point in a rule box. -/
def inBox (lat lon : ℚ) (r : String × ℚ × ℚ × ℚ × ℚ) : Bool :=
  decide (r.2.1 < lat) && decide (lat < r.2.2.1) &&
  decide (r.2.2.2.1 < lon) && decide (lon < r.2.2.2.2)

/-- Specification-side classifier: the name of the first rule of the
table whose box strictly contains the point, else unknown. -/
def firstRegion (lat lon : ℚ) : String :=
  ((ruleList.find? (inBox lat lon)).map Prod.fst).getD "unknown"

/-- Modelled from the spec: the frame decoder is the external pyubx2
UBXReader, whose code is not under src/; this follows section 4.1 of the
spec.  The running dual 8-bit checksum: seed (0,0); for each byte
ckA := (ckA + byte) mod 256, ckB := (ckB + ckA) mod 256. -/
def ckSum (body : List ℕ) : ℕ × ℕ :=
  body.foldl (fun st b =>
    let a := (st.1 + b) % 256
    (a, (st.2 + a) % 256)) (0, 0)

/-- A structurally validated frame: class, id, the two little-endian
length bytes, the payload, and the two checksum bytes. -/
structure RawFrame where
  cls : ℕ
  mid : ℕ
  lenLo : ℕ
  lenHi : ℕ
  payload : List ℕ
  ckA : ℕ
  ckB : ℕ
deriving DecidableEq, Repr

/-- The bytes the checksum of a frame is computed over: class, id, the
two length bytes, and the payload. -/
def frameBody (f : RawFrame) : List ℕ :=
  f.cls :: f.mid :: f.lenLo :: f.lenHi :: f.payload

/-- First sync byte of the frame marker. -/
def syncA : ℕ := 181

/-- Second sync byte of the frame marker. -/
def syncB : ℕ := 98

/-- Modelled from the spec: the scanning loop of the frame decoder
(spec section 4.1), with explicit fuel (the initial byte count suffices,
as every step consumes at least one byte).  Scan byte-by-byte for the
sync pair; on a marker read class, id and the 16-bit little-endian
length; stop on truncation (fewer than length + 2 bytes remaining, or a
header cut short); on a checksum mismatch emit a warning and resume the
scan one byte past the rejected marker; on success yield the frame and
continue after its checksum bytes. -/
def scanFrames : ℕ → List ℕ → List RawFrame × List String
  | 0, _ => ([], [])
  | _ + 1, [] => ([], [])
  | fuel + 1, b :: bs =>
    if b = syncA then
      match bs with
      | b2 :: cls :: mid :: l1 :: l2 :: rest =>
        if b2 = syncB then
          let len := l1 + 256 * l2
          if len + 2 ≤ rest.length then
            if ckSum (cls :: mid :: l1 :: l2 :: rest.take len) =
                (rest.getD len 0, rest.getD (len + 1) 0) then
              let r := scanFrames fuel (rest.drop (len + 2))
              (⟨cls, mid, l1, l2, rest.take len,
                rest.getD len 0, rest.getD (len + 1) 0⟩ :: r.1, r.2)
            else
              let r := scanFrames fuel bs
              (r.1, "checksum mismatch: frame skipped" :: r.2)
          else ([], [])
        else scanFrames fuel bs
      | _ => ([], [])
    else scanFrames fuel bs

/-- Modelled from the spec: decode every frame of a byte stream. -/
def decodeFrames (bs : List ℕ) : List RawFrame × List String :=
  scanFrames bs.length bs

/-! ## Helper lemmas -/

/-- Every frame yielded by the scanner carries a checksum that validates
against its own body, whatever the fuel and input. -/
theorem scanFrames_sound (fuel : ℕ) :
    ∀ (bs : List ℕ) (f : RawFrame), f ∈ (scanFrames fuel bs).1 →
      ckSum (frameBody f) = (f.ckA, f.ckB) := by
  induction fuel with
  | zero => intro bs f hf; simp [scanFrames] at hf
  | succ n ih =>
    intro bs f hf
    cases bs with
    | nil => simp [scanFrames] at hf
    | cons b tl =>
      unfold scanFrames at hf
      split at hf
      · cases tl with
        | nil => simp at hf
        | cons b2 tl2 =>
          cases tl2 with
          | nil => simp at hf
          | cons cls tl3 =>
            cases tl3 with
            | nil => simp at hf
            | cons mid tl4 =>
              cases tl4 with
              | nil => simp at hf
              | cons l1 tl5 =>
                cases tl5 with
                | nil => simp at hf
                | cons l2 rest =>
                  simp only at hf
                  split at hf
                  · split at hf
                    · split at hf
                      · simp only [List.mem_cons] at hf
                        rcases hf with hf | hf
                        · subst hf
                          simpa [frameBody] using (by assumption :
                            ckSum (cls :: mid :: l1 :: l2 ::
                              rest.take (l1 + 256 * l2)) =
                            (rest.getD (l1 + 256 * l2) 0,
                             rest.getD (l1 + 256 * l2 + 1) 0))
                        · exact ih _ _ hf
                      · exact ih _ _ hf
                    · simp at hf
                  · exact ih _ _ hf
      · exact ih _ _ hf

/-- A floor quotient by 1000 that is nonnegative agrees with the
truncating quotient. -/
theorem fdiv_thousand_eq_tdiv (n : ℤ) (h : 0 ≤ Int.fdiv n 1000) :
    Int.fdiv n 1000 = Int.tdiv n 1000 := by
  rw [Int.fdiv_eq_ediv _ (by norm_num)] at h ⊢
  have hn : 0 ≤ n := by
    by_contra hneg
    push_neg at hneg
    exact absurd h (not_le.mpr (Int.ediv_neg' hneg (by norm_num)))
  rw [Int.tdiv_eq_ediv hn (by norm_num)]

/-- A record whose calendar fields never pass the datetime validity check
is normalized to nothing. -/
theorem normalizeFix_invalid_calendar (f : FixFields)
    (hcal : ∀ y mo d hh mi s, f.year = some y → f.month = some mo →
      f.day = some d → f.hour = some hh → f.minute = some mi →
      f.second = some s →
      validDateTime y mo d hh mi s (usecOf f.nano) = false) :
    normalizeFix f = none := by
  unfold normalizeFix
  split
  · next lat lon y mo d hh mi s hl hlo hy hmo hd hh2 hmi hs =>
    split
    · rfl
    · split
      · rfl
      · rw [if_neg]
        simp [hcal y mo d hh mi s hy hmo hd hh2 hmi hs]
  · rfl

/-- Lifting of `normalizeFix_invalid_calendar` through the NAV-PVT
filter. -/
theorem processRecord_invalid_calendar (p : Parsed)
    (hcal : ∀ y mo d hh mi s, p.year = some y → p.month = some mo →
      p.day = some d → p.hour = some hh → p.minute = some mi →
      p.second = some s →
      validDateTime y mo d hh mi s (usecOf p.nano) = false) :
    processRecord p = none := by
  unfold processRecord
  rcases hid : extractFix p with _ | f
  · rfl
  · show normalizeFix f = none
    unfold extractFix at hid
    split at hid
    · injection hid with hf
      subst hf
      exact normalizeFix_invalid_calendar _ hcal
    · cases hid

/-- Removing a record that contributes no sample leaves the rest of the
file result unchanged and in order. -/
theorem collectFile_skip (pre post : List Parsed) (p : Parsed)
    (h : processRecord p = none) :
    collectFile (pre ++ p :: post) = collectFile pre ++ collectFile post := by
  simp [collectFile, List.filterMap_append, List.filterMap_cons, h]

/-! ## Claim theorems -/

/-- Claim C1: a frame whose two trailing checksum bytes do not match the
checksum computed over class, id, length bytes and payload is reported as
a checksum failure: a warning is emitted, the frame is skipped, and the
scan resumes one byte past the rejected marker; and no frame the decoder
yields ever carries a checksum that fails to validate against its decoded
fields. -/
theorem checksum_mismatch_skipped (fuel : ℕ) (cls mid l1 l2 : ℕ)
    (rest : List ℕ)
    (hlen : l1 + 256 * l2 + 2 ≤ rest.length)
    (hbad : ckSum (cls :: mid :: l1 :: l2 :: rest.take (l1 + 256 * l2)) ≠
      (rest.getD (l1 + 256 * l2) 0, rest.getD (l1 + 256 * l2 + 1) 0)) :
    (∀ (bs : List ℕ) (f : RawFrame), f ∈ (decodeFrames bs).1 →
        ckSum (frameBody f) = (f.ckA, f.ckB)) ∧
    scanFrames (fuel + 1) (syncA :: syncB :: cls :: mid :: l1 :: l2 :: rest) =
      ((scanFrames fuel (syncB :: cls :: mid :: l1 :: l2 :: rest)).1,
       "checksum mismatch: frame skipped" ::
         (scanFrames fuel (syncB :: cls :: mid :: l1 :: l2 :: rest)).2) := by
  constructor
  · intro bs f hf
    exact scanFrames_sound _ _ _ hf
  · simp only [List.getD, List.get?_eq_getElem?] at hbad
    conv_lhs => rw [scanFrames]
    simp [hlen, hbad]

/-- Witness for C1: a concrete frame whose checksum bytes (9, 9) differ
from the computed checksum (3, 10) is skipped with a warning. -/
theorem checksum_mismatch_skipped_witness :
    (∀ (bs : List ℕ) (f : RawFrame), f ∈ (decodeFrames bs).1 →
        ckSum (frameBody f) = (f.ckA, f.ckB)) ∧
    scanFrames 1 (syncA :: syncB :: 1 :: 2 :: 0 :: 0 :: [9, 9]) =
      ((scanFrames 0 (syncB :: 1 :: 2 :: 0 :: 0 :: [9, 9])).1,
       "checksum mismatch: frame skipped" ::
         (scanFrames 0 (syncB :: 1 :: 2 :: 0 :: 0 :: [9, 9])).2) :=
  checksum_mismatch_skipped 0 1 2 0 0 [9, 9] (by decide) (by decide)

/-- Claim C2: the classifier agrees everywhere with the first-match
semantics over the ordered rule table with strict containment and the
sentinel unknown, and in particular classifies (1.30, 103.82) as
Singapore, (0, 0) as unknown and (61, 25) as Finland. -/
theorem classify_first_match :
    (∀ lat lon : ℚ, classify lat lon = firstRegion lat lon) ∧
    classify 1.30 103.82 = "Singapore" ∧
    classify 0 0 = "unknown" ∧
    classify 61 25 = "Finland" := by
  refine ⟨?_, by norm_num [classify], by norm_num [classify],
    by norm_num [classify]⟩
  intro lat lon
  unfold classify firstRegion ruleList
  split_ifs with h1 h2 h3 h4 h5 h6
  · rw [List.find?_cons_of_pos _ (by simpa [inBox, and_assoc] using h1)]
    rfl
  · rw [List.find?_cons_of_neg _ (by simpa [inBox, and_assoc] using h1),
        List.find?_cons_of_pos _ (by simpa [inBox, and_assoc] using h2)]
    rfl
  · rw [List.find?_cons_of_neg _ (by simpa [inBox, and_assoc] using h1),
        List.find?_cons_of_neg _ (by simpa [inBox, and_assoc] using h2),
        List.find?_cons_of_pos _ (by simpa [inBox, and_assoc] using h3)]
    rfl
  · rw [List.find?_cons_of_neg _ (by simpa [inBox, and_assoc] using h1),
        List.find?_cons_of_neg _ (by simpa [inBox, and_assoc] using h2),
        List.find?_cons_of_neg _ (by simpa [inBox, and_assoc] using h3),
        List.find?_cons_of_pos _ (by simpa [inBox, and_assoc] using h4)]
    rfl
  · rw [List.find?_cons_of_neg _ (by simpa [inBox, and_assoc] using h1),
        List.find?_cons_of_neg _ (by simpa [inBox, and_assoc] using h2),
        List.find?_cons_of_neg _ (by simpa [inBox, and_assoc] using h3),
        List.find?_cons_of_neg _ (by simpa [inBox, and_assoc] using h4),
        List.find?_cons_of_pos _ (by simpa [inBox, and_assoc] using h5)]
    rfl
  · rw [List.find?_cons_of_neg _ (by simpa [inBox, and_assoc] using h1),
        List.find?_cons_of_neg _ (by simpa [inBox, and_assoc] using h2),
        List.find?_cons_of_neg _ (by simpa [inBox, and_assoc] using h3),
        List.find?_cons_of_neg _ (by simpa [inBox, and_assoc] using h4),
        List.find?_cons_of_neg _ (by simpa [inBox, and_assoc] using h5),
        List.find?_cons_of_pos _ (by simpa [inBox, and_assoc] using h6)]
    rfl
  · rw [List.find?_cons_of_neg _ (by simpa [inBox, and_assoc] using h1),
        List.find?_cons_of_neg _ (by simpa [inBox, and_assoc] using h2),
        List.find?_cons_of_neg _ (by simpa [inBox, and_assoc] using h3),
        List.find?_cons_of_neg _ (by simpa [inBox, and_assoc] using h4),
        List.find?_cons_of_neg _ (by simpa [inBox, and_assoc] using h5),
        List.find?_cons_of_neg _ (by simpa [inBox, and_assoc] using h6)]
    rfl

/-- Claim C3 counterexample: a raw integer latitude of 1307800 is
converted by the first (plain float) path, which succeeds on every int,
so the result is 1307800 degrees, not the claimed 0.13078 degrees. -/
theorem raw_int_coordinate_not_scaled :
    parseCoord (RawVal.vint 1307800) = some (1307800 : ℚ) ∧
    (1307800 : ℚ) ≠ (0.13078 : ℚ) :=
  ⟨rfl, by norm_num⟩

/-- Claim C3 amended: a raw value that converts as a float (every int and
float does) is taken as degrees unchanged; the division by 10^7 happens
only on the fallback path, when the float conversion fails and the
integer parse succeeds, e.g. on a bytes-encoded integer, where raw
1307800 indeed normalizes to 0.13078 degrees. -/
theorem coordinate_conversion_paths :
    (∀ n : ℤ, parseCoord (RawVal.vint n) = some (n : ℚ) ∧
      parseCoord (RawVal.vbytes n) = some ((n : ℚ) / 10000000)) ∧
    parseCoord (RawVal.vbytes 1307800) = some (0.13078 : ℚ) := by
  refine ⟨fun n => ⟨rfl, rfl⟩, ?_⟩
  norm_num [parseCoord, pyInt, pyFloat]

/-- Claim C9: on every numeric input (a Python int or float) the initial
float conversion succeeds, so the dual-path coordinate parser agrees with
plain float conversion there and the scaled-integer fallback is
unreachable. -/
theorem numeric_coordinate_plain_float :
    ∀ (n : ℤ) (q : ℚ),
      parseCoord (RawVal.vint n) = pyFloat (RawVal.vint n) ∧
      (pyFloat (RawVal.vint n)).isSome = true ∧
      parseCoord (RawVal.vfloat q) = pyFloat (RawVal.vfloat q) ∧
      (pyFloat (RawVal.vfloat q)).isSome = true :=
  fun _ _ => ⟨rfl, rfl, rfl, rfl⟩

/-- A NAV-PVT record with a required field absent is normalized to
nothing. -/
theorem normalizeFix_missing (f : FixFields)
    (hmiss : hasMissingField f = true) : normalizeFix f = none := by
  unfold normalizeFix
  split
  · next lat lon y mo d hh mi s hl hlo hy hmo hd hh2 hmi hs =>
    simp [hasMissingField, hl, hlo, hy, hmo, hd, hh2, hmi, hs] at hmiss
  · rfl

/-- Claim C4 counterexample: a NAV-PVT record with an absent latitude is
skipped, but no warning of any kind is recorded for it: the file result
is an empty sample list with an empty warning list. -/
theorem missing_fields_no_warning :
    collectDir [("file1.ubz", Except.ok
      [⟨some "NAV-PVT", none, some (RawVal.vint 0), some 2025, some 9,
        some 12, some 0, some 53, some 40, none⟩])] =
      ([("file1.ubz", [])], []) := rfl

/-- Claim C4 amended: a fix record missing a required field is skipped
silently (no warning is emitted anywhere) and processing of the
remaining records of the file continues in order. -/
theorem missing_fields_skipped_silently (pre post : List Parsed)
    (p : Parsed) (f : FixFields)
    (hex : extractFix p = some f) (hmiss : hasMissingField f = true) :
    processRecord p = none ∧
    collectFile (pre ++ p :: post) = collectFile pre ++ collectFile post ∧
    ∀ nm : String,
      (collectDir [(nm, Except.ok (pre ++ p :: post))]).2 = [] := by
  have hp : processRecord p = none := by
    unfold processRecord
    rw [hex]
    exact normalizeFix_missing f hmiss
  exact ⟨hp, collectFile_skip _ _ _ hp, fun nm => by simp [collectDir]⟩

/-- Witness record: a valid NAV-PVT fix (2025-09-12 00:53:40, nano 1500,
coordinates as floats). -/
def wValid : Parsed :=
  ⟨some "NAV-PVT", some (RawVal.vfloat 61), some (RawVal.vfloat 25),
   some 2025, some 9, some 12, some 0, some 53, some 40,
   some (RawVal.vint 1500)⟩

/-- Witness record: as `wValid` but with the latitude attribute absent. -/
def wMissing : Parsed :=
  ⟨some "NAV-PVT", none, some (RawVal.vfloat 25),
   some 2025, some 9, some 12, some 0, some 53, some 40,
   some (RawVal.vint 1500)⟩

/-- Witness record: as `wValid` but with month 13. -/
def wMonth13 : Parsed :=
  ⟨some "NAV-PVT", some (RawVal.vfloat 61), some (RawVal.vfloat 25),
   some 2025, some 13, some 12, some 0, some 53, some 40,
   some (RawVal.vint 1500)⟩

/-- Witness record: as `wValid` but with nano -1500. -/
def wNegNano : Parsed :=
  ⟨some "NAV-PVT", some (RawVal.vfloat 61), some (RawVal.vfloat 25),
   some 2025, some 9, some 12, some 0, some 53, some 40,
   some (RawVal.vint (-1500))⟩

/-- Witness for C4: the concrete missing-latitude record is skipped, the
neighbouring valid records keep their order, and no warning appears. -/
theorem missing_fields_skipped_silently_witness :
    processRecord wMissing = none ∧
    collectFile ([wValid] ++ wMissing :: [wValid]) =
      collectFile [wValid] ++ collectFile [wValid] ∧
    ∀ nm : String,
      (collectDir [(nm, Except.ok ([wValid] ++ wMissing :: [wValid]))]).2 = [] :=
  missing_fields_skipped_silently [wValid] [wValid] wMissing
    ⟨none, some (RawVal.vfloat 25), some 2025, some 9, some 12, some 0,
     some 53, some 40, some (RawVal.vint 1500)⟩ rfl rfl

/-- Claim C5: the sub-second component of every produced sample equals
the nano field divided by 1000 truncating toward zero (for any sample
that exists the floor quotient the code computes is nonnegative, where
floor and truncation agree); an absent or unparsable nano is treated as
zero and the record is still normalized. -/
theorem nano_truncated_to_microseconds :
    (∀ (f : FixFields) (sm : Sample) (v : RawVal) (n : ℤ),
        normalizeFix f = some sm → f.nano = some v → pyInt v = some n →
        sm.usec = Int.tdiv n 1000) ∧
    (∀ (f : FixFields) (lv lov : RawVal) (latq lonq : ℚ)
        (y mo d hh mi s : ℤ),
        (f.nano = none ∨ ∃ v, f.nano = some v ∧ pyInt v = none) →
        f.lat = some lv → f.lon = some lov → f.year = some y →
        f.month = some mo → f.day = some d → f.hour = some hh →
        f.minute = some mi → f.second = some s →
        parseCoord lv = some latq → parseCoord lov = some lonq →
        validDateTime y mo d hh mi s 0 = true →
        normalizeFix f = some ⟨y, mo, d, hh, mi, s, 0, latq, lonq⟩) := by
  constructor
  · intro f sm v n hsome hv hn
    unfold normalizeFix at hsome
    split at hsome
    · next lat lon y mo d hh mi s2 hl hlo hy hmo hd hh2 hmi hs2 =>
      split at hsome
      · cases hsome
      · split at hsome
        · cases hsome
        · simp only at hsome
          split at hsome
          · next hvalid =>
            injection hsome with hsm
            subst hsm
            have hu : usecOf f.nano = Int.fdiv n 1000 := by
              simp [usecOf, hv, hn]
            simp only [validDateTime, Bool.and_eq_true,
              decide_eq_true_eq] at hvalid
            have h0 : (0 : ℤ) ≤ usecOf f.nano := hvalid.1.2
            show usecOf f.nano = Int.tdiv n 1000
            rw [hu] at h0 ⊢
            exact fdiv_thousand_eq_tdiv n h0
          · cases hsome
    · cases hsome
  · intro f lv lov latq lonq y mo d hh mi s hnano hl hlo hy hmo hd hh2 hmi hs
      hplat hplon hval
    have hu : usecOf f.nano = 0 := by
      rcases hnano with hnone | ⟨v, hv, hvn⟩
      · simp [usecOf, hnone]
      · simp [usecOf, hv, hvn]
    unfold normalizeFix
    simp only [hl, hlo, hy, hmo, hd, hh2, hmi, hs, hplat, hplon, hu, hval]
    simp

/-- Witness for C5: a nano of 1500 gives sub-second component
tdiv 1500 1000 = 1; an unparsable nano still yields a sample with
sub-second component 0. -/
theorem nano_truncated_to_microseconds_witness :
    (⟨2025, 9, 12, 0, 53, 40, 1, 61, 25⟩ : Sample).usec = Int.tdiv 1500 1000 ∧
    normalizeFix
      ⟨some (RawVal.vfloat 61), some (RawVal.vfloat 25), some 2025, some 9,
       some 12, some 0, some 53, some 40, some RawVal.vbad⟩ =
      some ⟨2025, 9, 12, 0, 53, 40, 0, 61, 25⟩ :=
  ⟨nano_truncated_to_microseconds.1
      ⟨some (RawVal.vfloat 61), some (RawVal.vfloat 25), some 2025, some 9,
       some 12, some 0, some 53, some 40, some (RawVal.vint 1500)⟩
      ⟨2025, 9, 12, 0, 53, 40, 1, 61, 25⟩ (RawVal.vint 1500) 1500
      rfl rfl rfl,
   nano_truncated_to_microseconds.2
      ⟨some (RawVal.vfloat 61), some (RawVal.vfloat 25), some 2025, some 9,
       some 12, some 0, some 53, some 40, some RawVal.vbad⟩
      (RawVal.vfloat 61) (RawVal.vfloat 25) 61 25 2025 9 12 0 53 40
      (Or.inr ⟨RawVal.vbad, rfl, rfl⟩) rfl rfl rfl rfl rfl rfl rfl rfl
      rfl rfl (by decide)⟩

/-- Claim C6: a record whose calendar fields never form a valid datetime
produces no sample (no correction or clamping), and the other records of
the file keep their places, in original decode order. -/
theorem invalid_calendar_skipped (pre post : List Parsed) (p : Parsed)
    (hcal : ∀ y mo d hh mi s, p.year = some y → p.month = some mo →
      p.day = some d → p.hour = some hh → p.minute = some mi →
      p.second = some s →
      validDateTime y mo d hh mi s (usecOf p.nano) = false) :
    processRecord p = none ∧
    collectFile (pre ++ p :: post) = collectFile pre ++ collectFile post :=
  ⟨processRecord_invalid_calendar p hcal,
   collectFile_skip _ _ _ (processRecord_invalid_calendar p hcal)⟩

/-- Witness for C6: a record with month 13 between two valid records is
dropped while the two valid records survive in order. -/
theorem invalid_calendar_skipped_witness :
    processRecord wMonth13 = none ∧
    collectFile ([wValid] ++ wMonth13 :: [wValid]) =
      collectFile [wValid] ++ collectFile [wValid] :=
  invalid_calendar_skipped [wValid] [wValid] wMonth13
    (by
      intro y mo d hh mi s hy hmo hd hh2 hmi hs
      simp only [wMonth13, Option.some.injEq] at hy hmo hd hh2 hmi hs
      subst hy; subst hmo; subst hd; subst hh2; subst hmi; subst hs
      decide)

/-- Claim C7: a file whose stream processing raises contributes an empty
sample sequence plus one warning, and every other file of the run keeps
exactly the result it would have on its own. -/
theorem decompression_failure_isolated
    (pre post : List (String × Except String (List Parsed)))
    (name e : String) :
    collectDir (pre ++ (name, Except.error e) :: post) =
      ((collectDir pre).1 ++ (name, []) :: (collectDir post).1,
       (collectDir pre).2 ++
         ("Warning: failed to process " ++ name ++ ": " ++ e) ::
           (collectDir post).2) := by
  induction pre with
  | nil => simp [collectDir]
  | cons hd tl ih =>
    obtain ⟨nm, data⟩ := hd
    cases data with
    | ok recs => simp [collectDir, ih]
    | error e2 => simp [collectDir, ih]

/-- Claim C8: the field extraction yields a fix record exactly for frames
whose identity is NAV-PVT; every other frame is silently skipped,
producing nothing. -/
theorem fix_record_iff_navpvt (p : Parsed) :
    ((extractFix p).isSome = true ↔ p.identity = some "NAV-PVT") ∧
    (p.identity ≠ some "NAV-PVT" → processRecord p = none) := by
  constructor
  · unfold extractFix
    split <;> simp_all
  · intro hne
    have hnone : extractFix p = none := by
      unfold extractFix
      exact if_neg hne
    unfold processRecord
    rw [hnone]

/-- Witness for C8: a NAV-POSLLH frame produces nothing. -/
theorem fix_record_iff_navpvt_witness :
    ((extractFix ⟨some "NAV-POSLLH", none, none, none, none, none, none,
        none, none, none⟩).isSome = true ↔
      (⟨some "NAV-POSLLH", none, none, none, none, none, none, none, none,
        none⟩ : Parsed).identity = some "NAV-PVT") ∧
    processRecord ⟨some "NAV-POSLLH", none, none, none, none, none, none,
      none, none, none⟩ = none :=
  ⟨(fix_record_iff_navpvt _).1,
   (fix_record_iff_navpvt _).2 (by decide)⟩

/-- Claim C10: a record whose nano field is an integer with a negative
floor quotient by 1000 is always skipped, whatever its other fields: the
negative microsecond value fails the datetime validity check. -/
theorem negative_nano_no_sample (p : Parsed) (v : RawVal) (n : ℤ)
    (hv : p.nano = some v) (hn : pyInt v = some n)
    (hneg : Int.fdiv n 1000 < 0) :
    processRecord p = none := by
  apply processRecord_invalid_calendar
  intro y mo d hh mi s _ _ _ _ _ _
  have hu : usecOf p.nano = Int.fdiv n 1000 := by simp [usecOf, hv, hn]
  rw [hu]
  have h0 : decide ((0 : ℤ) ≤ Int.fdiv n 1000) = false :=
    decide_eq_false (not_le.mpr hneg)
  simp [validDateTime, h0]

/-- Witness for C10: nano -1500 (floor quotient -2) yields no sample even
though every calendar field is valid. -/
theorem negative_nano_no_sample_witness :
    processRecord wNegNano = none :=
  negative_nano_no_sample wNegNano (RawVal.vint (-1500)) (-1500)
    rfl rfl (by decide)
